import Mathlib

/-!
Verification of the GPU-orchestration core of `collatz_at_home`
(`src/src/lib.rs`, `src/src/main.rs`) against its specification.

Embedding conventions:
* `u128` and `u32` values are modelled as `Nat`; Rust `(n >> k) & 0xFFFFFFFF`
  becomes `n / 2^k % 2^32`, and wrapping arithmetic carries an explicit
  `% 2^128` (resp. `% 2^32`), matching release-profile overflow semantics.
* Rust strings are modelled as `List Char` (the parser inspects characters).
* Byte buffers are `List Nat` with every element below 256.
* The asynchronous wgpu environment (adapter/device availability, the
  map-async channel, and the compute artifact filling the output buffer)
  is a parameter `GpuEnv`; `do_gpu_collatz` additionally returns the list
  of GPU API events it performed, in program order.
-/

set_option maxRecDepth 8000

namespace CollatzAtHome

/-- Batch size of the WASM entry point (`const RANGE: u128 = 50_000` in lib.rs). -/
def RANGE : Nat := 50000

/-- `u128_to_u32_array` from lib.rs / main.rs: little-endian split of a
128-bit value into four 32-bit words. -/
def u128_to_u32_array (n : Nat) : List Nat :=
  [n % 2^32, n / 2^32 % 2^32, n / 2^64 % 2^32, n / 2^96 % 2^32]

/-- `u32_array_to_u128` from lib.rs / main.rs: little-endian reassembly of a
128-bit value from four 32-bit words (`|` of shifted words is addition here
because the words are disjoint ranges of bits). -/
def u32_array_to_u128 (parts : List Nat) : Nat :=
  parts.getD 0 0 + parts.getD 1 0 * 2^32 + parts.getD 2 0 * 2^64 + parts.getD 3 0 * 2^96

/-- `u32::to_le_bytes`: the four little-endian bytes of a 32-bit word. -/
def u32_le_bytes (w : Nat) : List Nat :=
  [w % 256, w / 256 % 256, w / 2^16 % 256, w / 2^24 % 256]

/-- `u32_array_to_bytes` from lib.rs / main.rs: the 16-byte little-endian
buffer form of a 4-word array. -/
def u32_array_to_bytes (parts : List Nat) : List Nat :=
  parts.flatMap u32_le_bytes

/-- `bytemuck::cast_slice::<u8, u32>` on the little-endian wasm32/x86 targets:
each aligned 4-byte group becomes one little-endian u32; a trailing group of
fewer than 4 bytes would make `cast_slice` fail, and never occurs here since
all buffers have sizes divisible by 4. -/
def bytesToWords : List Nat → List Nat
  | b0 :: b1 :: b2 :: b3 :: rest => (b0 + b1 * 256 + b2 * 2^16 + b3 * 2^24) :: bytesToWords rest
  | _ => []

theorem words_of_u128_round : ∀ v : Nat, v < 2^128 →
    u32_array_to_u128 (u128_to_u32_array v) = v := by
  intro v hv
  simp only [u128_to_u32_array, u32_array_to_u128, List.getD_cons_zero, List.getD_cons_succ]
  omega

theorem u128_of_words_round : ∀ p0 p1 p2 p3 : Nat, p0 < 2^32 → p1 < 2^32 → p2 < 2^32 →
    p3 < 2^32 → u128_to_u32_array (u32_array_to_u128 [p0, p1, p2, p3]) = [p0, p1, p2, p3] := by
  intro p0 p1 p2 p3 h0 h1 h2 h3
  simp only [u128_to_u32_array, u32_array_to_u128, List.getD_cons_zero, List.getD_cons_succ,
    List.cons.injEq, and_true]
  refine ⟨by omega, by omega, by omega, by omega⟩

theorem bytes_of_words_round : ∀ p0 p1 p2 p3 : Nat, p0 < 2^32 → p1 < 2^32 → p2 < 2^32 →
    p3 < 2^32 → bytesToWords (u32_array_to_bytes [p0, p1, p2, p3]) = [p0, p1, p2, p3] := by
  intro p0 p1 p2 p3 h0 h1 h2 h3
  simp only [u32_array_to_bytes, u32_le_bytes, List.flatMap_cons, List.flatMap_nil,
    List.cons_append, List.nil_append, bytesToWords, List.cons.injEq, and_true]
  refine ⟨by omega, by omega, by omega, by omega⟩

/-- Claim C4: the wide-integer codec functions are mutual inverses: decoding
the 4-word little-endian encoding of any 128-bit value yields the value back,
encoding the decoding of any 4-word array yields the array back, and composing
the word encoding with the 16-byte little-endian buffer encoding and decoding
is also the identity. -/
theorem C4_codec_round_trip :
    (∀ v : Nat, v < 2^128 → u32_array_to_u128 (u128_to_u32_array v) = v)
    ∧ (∀ p0 p1 p2 p3 : Nat, p0 < 2^32 → p1 < 2^32 → p2 < 2^32 → p3 < 2^32 →
        u128_to_u32_array (u32_array_to_u128 [p0, p1, p2, p3]) = [p0, p1, p2, p3])
    ∧ (∀ p0 p1 p2 p3 : Nat, p0 < 2^32 → p1 < 2^32 → p2 < 2^32 → p3 < 2^32 →
        bytesToWords (u32_array_to_bytes [p0, p1, p2, p3]) = [p0, p1, p2, p3])
    ∧ (∀ v : Nat, v < 2^128 →
        u32_array_to_u128 (bytesToWords (u32_array_to_bytes (u128_to_u32_array v))) = v) := by
  refine ⟨words_of_u128_round, u128_of_words_round, bytes_of_words_round, ?_⟩
  intro v hv
  have h := bytes_of_words_round (v % 2^32) (v / 2^32 % 2^32) (v / 2^64 % 2^32) (v / 2^96 % 2^32)
    (by omega) (by omega) (by omega) (by omega)
  calc u32_array_to_u128 (bytesToWords (u32_array_to_bytes (u128_to_u32_array v)))
      = u32_array_to_u128 (u128_to_u32_array v) := by
        simp only [u128_to_u32_array]; rw [h]
    _ = v := words_of_u128_round v hv

/-- Witness for C4 at the boundary values 0 and `u128::MAX` named by the claim. -/
theorem C4_codec_round_trip_witness :
    u32_array_to_u128 (u128_to_u32_array 0) = 0
    ∧ u32_array_to_u128 (u128_to_u32_array (2^128 - 1)) = 2^128 - 1
    ∧ u32_array_to_u128 (bytesToWords (u32_array_to_bytes (u128_to_u32_array (2^128 - 1))))
        = 2^128 - 1 :=
  ⟨C4_codec_round_trip.1 0 (by norm_num), C4_codec_round_trip.1 (2^128 - 1) (by norm_num),
   C4_codec_round_trip.2.2.2 (2^128 - 1) (by norm_num)⟩

/-- The candidate list of one WASM invocation: lib.rs line 112,
`let test_numbers: Vec<u128> = (n..n + RANGE).collect();`.  The exclusive
end `n + RANGE` is a wrapping u128 addition; a Rust `Range` whose end is
below its start is empty, hence the truncated subtraction. -/
def test_numbers (n : Nat) : List Nat :=
  (List.range ((n + RANGE) % 2^128 - n)).map (fun i => n + i)

theorem test_numbers_length : ∀ n : Nat, n + RANGE < 2^128 →
    (test_numbers n).length = RANGE := by
  intro n h
  simp only [test_numbers, List.length_map, List.length_range, Nat.mod_eq_of_lt h]
  omega

theorem test_numbers_getD : ∀ n : Nat, n + RANGE < 2^128 → ∀ i : Nat, i < RANGE →
    (test_numbers n).getD i 0 = n + i := by
  intro n h i hi
  have hlt : i < (n + RANGE) % 2^128 - n := by rw [Nat.mod_eq_of_lt h]; omega
  have hr : (List.range ((n + RANGE) % 2^128 - n))[i]? = some i := List.getElem?_range hlt
  simp only [test_numbers, List.getD_eq_getElem?_getD, List.getElem?_map, hr, Option.map_some',
    Option.getD_some]

/-- Claim C5 (amended): for every start value such that the exclusive range
end `start + count` is still representable in 128 bits, the candidate range
generator produces exactly `count = 50000` values, consecutive, strictly
increasing, beginning at `start`.  (The original claim's weaker hypothesis
`start + count - 1 ≤ 2^128 - 1` admits the single start value
`2^128 - 50000`, where the wrapping computation of the range end makes the
range empty — see the counterexample.) -/
theorem C5_amended_range : ∀ n : Nat, n + RANGE < 2^128 →
    (test_numbers n).length = RANGE
    ∧ (∀ i : Nat, i < RANGE → (test_numbers n).getD i 0 = n + i)
    ∧ (test_numbers n).Pairwise (· < ·) := by
  intro n h
  refine ⟨test_numbers_length n h, test_numbers_getD n h, ?_⟩
  have hp : (List.range ((n + RANGE) % 2^128 - n)).Pairwise (· < ·) := List.pairwise_lt_range _
  exact (List.pairwise_map.mpr (hp.imp (fun hab => by omega)))

/-- Witness for C5 (amended) at `start = 1`. -/
theorem C5_amended_range_witness :
    (test_numbers 1).length = RANGE ∧ (test_numbers 1).getD 3 0 = 4 := by
  have h := C5_amended_range 1 (by norm_num [RANGE])
  exact ⟨h.1, by rw [h.2.1 3 (by norm_num [RANGE])]⟩

/-- Counterexample for C5 as stated: at `start = 2^128 - 50000` the claim's
hypothesis `start + count - 1 ≤ 2^128 - 1` holds, yet the generator produces
no values at all, because the wrapping u128 computation of the exclusive
range end `start + 50000` yields 0 and the resulting Rust range is empty
(under debug overflow checks the same addition panics, likewise producing
no values). -/
theorem C5_counterexample :
    2^128 - RANGE + RANGE - 1 ≤ 2^128 - 1
    ∧ (test_numbers (2^128 - RANGE)).length ≠ RANGE := by
  refine ⟨by norm_num [RANGE], ?_⟩
  have : (2^128 - RANGE + RANGE) % 2^128 = 0 := by norm_num [RANGE]
  simp [test_numbers, this, RANGE]

/-- One digit step of Rust `str::parse::<u128>`: accumulate decimal digits,
reject any non-digit character (`'0'` is code 48, `'9'` is code 57). -/
def parseDigits : List Char → Nat → Option Nat
  | [], acc => some acc
  | c :: rest, acc =>
    if 48 ≤ c.toNat ∧ c.toNat ≤ 57 then parseDigits rest (acc * 10 + (c.toNat - 48))
    else none

/-- Rust `str::parse::<u128>` (`start_n.parse::<u128>()` in lib.rs line 106):
an optional leading `'+'`, then one or more decimal digits, rejecting values
above `u128::MAX`.  Overflow during Rust's digit accumulation is equivalent
to the final-value bound check, since appending digits never decreases the
accumulator. -/
def parseU128 (s : List Char) : Option Nat :=
  let t := match s with
    | '+' :: rest => rest
    | _ => s
  match t with
  | [] => none
  | _ :: _ =>
    match parseDigits t 0 with
    | some v => if v < 2^128 then some v else none
    | none => none

/-- The wgpu API calls `do_gpu_collatz` performs, in program order. -/
inductive Ev where
  | requestAdapter
  | adapterAcquired
  | requestDevice
  | deviceAcquired
  | parseAttempt
  | createBuffer (label : String) (size : Nat)
  | createShaderModule
  | createComputePipeline
  | createBindGroup
  | beginComputePass
  | dispatchWorkgroups (x y z : Nat)
  | copyBufferToBuffer (size : Nat)
  | submit
  | mapAsync
  | poll
  | unmap
  deriving DecidableEq

/-- The error cases of `do_gpu_collatz`, each carrying the message string the
code wraps into the returned `JsValue`. -/
inductive GpuError where
  | adapterUnavailable (msg : String)
  | deviceRequestFailed (msg : String)
  | parseError (msg : String)
  | channelError (msg : String)
  | mapFailed (msg : String)
  deriving DecidableEq

/-- The asynchronous environment one invocation runs against: whether the
adapter request and device request succeed, whether the map-async channel and
the mapping itself succeed (with the environment-dependent message strings the
code formats into its errors), and the compute artifact, abstracted as the
function from the input-buffer bytes to the output-buffer bytes. -/
structure GpuEnv where
  adapterOk : Bool
  deviceOk : Bool
  deviceErrMsg : String
  channelOk : Bool
  channelErrMsg : String
  mapOk : Bool
  mapErrMsg : String
  gpu : List Nat → List Nat

/-- The input-buffer contents (lib.rs lines 115-118): the candidates'
16-byte records concatenated in candidate order. -/
def input_data (n : Nat) : List Nat :=
  (test_numbers n).flatMap (fun m => u32_array_to_bytes (u128_to_u32_array m))

/-- `let output_size = test_numbers.len() * 32` (lib.rs line 127). -/
def output_size (count : Nat) : Nat := count * 32

/-- `let workgroup_size = 64` (lib.rs line 184). -/
def workgroup_size : Nat := 64

/-- `(test_numbers.len() as u32 + workgroup_size - 1) / workgroup_size`
(lib.rs line 185): the `usize → u32` cast truncates mod `2^32`, and the u32
addition and subtraction wrap mod `2^32`. -/
def num_workgroups (len : Nat) : Nat :=
  ((len % 2^32 + workgroup_size) % 2^32 + (2^32 - 1)) % 2^32 / workgroup_size

/-- The bytes visible through the mapped staging buffer: the device buffer
has exactly `sz` bytes (each below 256), padded with zeros where the
artifact left the buffer untouched. -/
def asBytes (l : List Nat) (sz : Nat) : List Nat :=
  (l.map (fun b => b % 256)).take sz ++ List.replicate (sz - l.length) 0

/-- `do_gpu_collatz` from lib.rs (lines 58-234), as a function of the
asynchronous environment: returns the wgpu events performed in program order,
paired with the `Result<Vec<u32>, JsValue>` value.  The decode loop at lines
212-226 only logs and is not modelled; the returned vector (line 228) is the
whole mapped staging range reinterpreted as u32 words. -/
def do_gpu_collatz (env : GpuEnv) (start_n : List Char) : List Ev × Except GpuError (List Nat) :=
  if env.adapterOk = false then
    ([.requestAdapter],
     .error (.adapterUnavailable
       "No GPU adapter found. Try Chrome WebGPU enabled. Safari Does not support WebGPU"))
  else if env.deviceOk = false then
    ([.requestAdapter, .adapterAcquired, .requestDevice],
     .error (.deviceRequestFailed env.deviceErrMsg))
  else
    match parseU128 start_n with
    | none =>
      ([.requestAdapter, .adapterAcquired, .requestDevice, .deviceAcquired, .parseAttempt],
       .error (.parseError "Could not parse n"))
    | some n =>
      let data := input_data n
      let osz := output_size (test_numbers n).length
      let trace : List Ev :=
        [.requestAdapter, .adapterAcquired, .requestDevice, .deviceAcquired, .parseAttempt,
         .createBuffer "Input Buffer" data.length,
         .createBuffer "Output Buffer" osz,
         .createBuffer "Staging Buffer" osz,
         .createShaderModule, .createComputePipeline, .createBindGroup,
         .beginComputePass,
         .dispatchWorkgroups (num_workgroups (test_numbers n).length) 1 1,
         .copyBufferToBuffer osz, .submit, .mapAsync, .poll]
      if env.channelOk = false then
        (trace, .error (.channelError env.channelErrMsg))
      else if env.mapOk = false then
        (trace, .error (.mapFailed env.mapErrMsg))
      else
        (trace ++ [.unmap], .ok (bytesToWords (asBytes (env.gpu data) osz)))

/-- An environment in which every asynchronous operation succeeds and the
artifact leaves the output buffer zeroed. -/
def envAll : GpuEnv :=
  { adapterOk := true, deviceOk := true, deviceErrMsg := "", channelOk := true,
    channelErrMsg := "", mapOk := true, mapErrMsg := "", gpu := fun _ => [] }

/-- An environment in which no adapter satisfies the request. -/
def envNoAdapter : GpuEnv := { envAll with adapterOk := false }

/-- An environment in which the adapter is found but device creation fails. -/
def envNoDevice : GpuEnv := { envAll with deviceOk := false, deviceErrMsg := "device lost" }

/-- Counterexample for C3 as stated: on the non-numeric input "a" (in an
environment where the GPU is available), the invocation does fail with the
parse error, but only after the adapter and the device/queue have been
acquired — the failure does not occur before any GPU resource is allocated. -/
theorem C3_counterexample :
    (do_gpu_collatz envAll ['a']).2 = .error (.parseError "Could not parse n")
    ∧ Ev.adapterAcquired ∈ (do_gpu_collatz envAll ['a']).1
    ∧ Ev.deviceAcquired ∈ (do_gpu_collatz envAll ['a']).1 := by
  refine ⟨rfl, ?_, ?_⟩ <;> decide

/-- Claim C3 (amended): for every input string that does not parse as an
unsigned 128-bit integer, `do_gpu_collatz` fails with the parse error, and
this failure occurs after the adapter and device/queue have been acquired but
before any buffer (or any other GPU resource beyond the session) is
allocated: the event trace is exactly adapter request/acquisition, device
request/acquisition, parse attempt. -/
theorem C3_amended_parse_error : ∀ (env : GpuEnv) (s : List Char),
    env.adapterOk = true → env.deviceOk = true → parseU128 s = none →
    do_gpu_collatz env s =
      ([.requestAdapter, .adapterAcquired, .requestDevice, .deviceAcquired, .parseAttempt],
       .error (.parseError "Could not parse n")) := by
  intro env s ha hd hp
  simp [do_gpu_collatz, ha, hd, hp]

/-- Witness for C3 (amended) on the concrete non-numeric input "x". -/
theorem C3_amended_parse_error_witness :
    do_gpu_collatz envAll ['x'] =
      ([.requestAdapter, .adapterAcquired, .requestDevice, .deviceAcquired, .parseAttempt],
       .error (.parseError "Could not parse n")) :=
  C3_amended_parse_error envAll ['x'] rfl rfl (by decide)

/-- Claim C8: the session stage fails with the adapter-unavailable message
exactly when no adapter satisfies the request, and with a device-request
failure exactly when the adapter is acquired but device creation fails; in
either case the invocation aborts at once — the trace shows that no later
stage (parsing, buffers, pipeline, dispatch, readback) runs. -/
theorem C8_session_failures : ∀ (env : GpuEnv) (s : List Char),
    ((do_gpu_collatz env s).2
        = .error (.adapterUnavailable
            "No GPU adapter found. Try Chrome WebGPU enabled. Safari Does not support WebGPU")
      ↔ env.adapterOk = false)
    ∧ ((∃ m, (do_gpu_collatz env s).2 = .error (.deviceRequestFailed m))
      ↔ (env.adapterOk = true ∧ env.deviceOk = false))
    ∧ (env.adapterOk = false → (do_gpu_collatz env s).1 = [.requestAdapter])
    ∧ (env.adapterOk = true → env.deviceOk = false →
        (do_gpu_collatz env s).1 = [.requestAdapter, .adapterAcquired, .requestDevice]) := by
  intro env s
  cases ha : env.adapterOk with
  | false => simp [do_gpu_collatz, ha]
  | true =>
    cases hd : env.deviceOk with
    | false => simp [do_gpu_collatz, ha, hd]
    | true =>
      have hres : (do_gpu_collatz env s).2 = .error (.parseError "Could not parse n")
          ∨ (do_gpu_collatz env s).2 = .error (.channelError env.channelErrMsg)
          ∨ (do_gpu_collatz env s).2 = .error (.mapFailed env.mapErrMsg)
          ∨ ∃ l, (do_gpu_collatz env s).2 = .ok l := by
        cases hp : parseU128 s with
        | none => simp [do_gpu_collatz, ha, hd, hp]
        | some n =>
          cases hc : env.channelOk with
          | false => simp [do_gpu_collatz, ha, hd, hp, hc]
          | true =>
            cases hm : env.mapOk with
            | false => simp [do_gpu_collatz, ha, hd, hp, hc, hm]
            | true =>
              refine Or.inr (Or.inr (Or.inr
                ⟨bytesToWords (asBytes (env.gpu (input_data n))
                  (output_size (test_numbers n).length)), ?_⟩))
              simp [do_gpu_collatz, ha, hd, hp, hc, hm]
      have hne1 : ¬((do_gpu_collatz env s).2
          = .error (.adapterUnavailable
            "No GPU adapter found. Try Chrome WebGPU enabled. Safari Does not support WebGPU")) := by
        rcases hres with h | h | h | ⟨l, h⟩ <;> rw [h] <;> simp
      have hne2 : ∀ m, ¬((do_gpu_collatz env s).2 = .error (.deviceRequestFailed m)) := by
        intro m
        rcases hres with h | h | h | ⟨l, h⟩ <;> rw [h] <;> simp
      refine ⟨?_, ?_, ?_, ?_⟩
      · exact ⟨fun h => absurd h hne1, fun h => Bool.noConfusion h⟩
      · constructor
        · rintro ⟨m, hm⟩; exact absurd hm (hne2 m)
        · rintro ⟨_, h⟩; exact Bool.noConfusion h
      · intro h; exact Bool.noConfusion h
      · intro _ h; exact Bool.noConfusion h

/-- Witness for C8: a concrete adapter-less environment produces the
adapter-unavailable error with nothing after the adapter request, and a
concrete environment whose device request fails produces a device-request
failure after exactly the adapter acquisition and device request. -/
theorem C8_session_failures_witness :
    (do_gpu_collatz envNoAdapter ['1']).2
      = .error (.adapterUnavailable
          "No GPU adapter found. Try Chrome WebGPU enabled. Safari Does not support WebGPU")
    ∧ (do_gpu_collatz envNoAdapter ['1']).1 = [.requestAdapter]
    ∧ (∃ m, (do_gpu_collatz envNoDevice ['1']).2 = .error (.deviceRequestFailed m))
    ∧ (do_gpu_collatz envNoDevice ['1']).1
        = [.requestAdapter, .adapterAcquired, .requestDevice] :=
  ⟨(C8_session_failures envNoAdapter ['1']).1.mpr rfl,
   (C8_session_failures envNoAdapter ['1']).2.2.1 rfl,
   (C8_session_failures envNoDevice ['1']).2.1.mpr ⟨rfl, rfl⟩,
   (C8_session_failures envNoDevice ['1']).2.2.2 rfl rfl⟩

theorem record_length : ∀ m : Nat, (u32_array_to_bytes (u128_to_u32_array m)).length = 16 := by
  intro m
  simp [u32_array_to_bytes, u128_to_u32_array, u32_le_bytes]

theorem input_data_extract : ∀ (l : List Nat) (i : Nat), i < l.length →
    ((l.flatMap (fun m => u32_array_to_bytes (u128_to_u32_array m))).drop (16 * i)).take 16
      = u32_array_to_bytes (u128_to_u32_array (l.getD i 0))
  | [], i, h => by simp at h
  | x :: xs, 0, _ => by
    rw [List.flatMap_cons, List.getD_cons_zero, Nat.mul_zero, List.drop_zero,
      List.take_left' (record_length x)]
  | x :: xs, i + 1, h => by
    rw [List.flatMap_cons, List.getD_cons_succ,
      show 16 * (i + 1) = (u32_array_to_bytes (u128_to_u32_array x)).length + 16 * i from by
        rw [record_length x]; ring,
      List.drop_append]
    exact input_data_extract xs i (by simpa using h)

theorem input_data_length : ∀ n : Nat, (input_data n).length = (test_numbers n).length * 16 := by
  intro n
  rw [input_data, List.length_flatMap]
  induction test_numbers n with
  | nil => rfl
  | cons x xs ih => simp only [List.map_cons, List.sum_cons, ih, Function.comp_apply,
      record_length x, List.length_cons]; ring

/-- Claim C6: per invocation the input buffer has size `count * 16` bytes and
holds the `count` 16-byte input records concatenated in candidate order
(record `i` occupies bytes `[16*i, 16*i+16)`), and the output and staging
buffers each have size `count * 32` — equal to each other and an exact
multiple of 32. -/
theorem C6_buffer_sizes : ∀ (env : GpuEnv) (s : List Char) (n : Nat),
    env.adapterOk = true → env.deviceOk = true → parseU128 s = some n →
    (input_data n).length = (test_numbers n).length * 16
    ∧ (∀ i : Nat, i < (test_numbers n).length →
        ((input_data n).drop (16 * i)).take 16
          = u32_array_to_bytes (u128_to_u32_array ((test_numbers n).getD i 0)))
    ∧ Ev.createBuffer "Input Buffer" ((test_numbers n).length * 16) ∈ (do_gpu_collatz env s).1
    ∧ Ev.createBuffer "Output Buffer" ((test_numbers n).length * 32) ∈ (do_gpu_collatz env s).1
    ∧ Ev.createBuffer "Staging Buffer" ((test_numbers n).length * 32) ∈ (do_gpu_collatz env s).1
    ∧ output_size (test_numbers n).length = (test_numbers n).length * 32
    ∧ 32 ∣ output_size (test_numbers n).length := by
  intro env s n ha hd hp
  have hlen := input_data_length n
  refine ⟨hlen, fun i hi => input_data_extract (test_numbers n) i hi, ?_, ?_, ?_,
    rfl, Dvd.intro _ (Nat.mul_comm _ _)⟩ <;>
  · cases hc : env.channelOk <;> cases hm : env.mapOk <;>
      simp [do_gpu_collatz, ha, hd, hp, hc, hm, output_size, hlen]

/-- Witness for C6 at the start value "1" in an all-successful environment:
the second candidate's record sits at bytes `[16, 32)` of the input buffer. -/
theorem C6_buffer_sizes_witness :
    (input_data 1).length = (test_numbers 1).length * 16
    ∧ ((input_data 1).drop 16).take 16
        = u32_array_to_bytes (u128_to_u32_array ((test_numbers 1).getD 1 0))
    ∧ Ev.createBuffer "Output Buffer" ((test_numbers 1).length * 32)
        ∈ (do_gpu_collatz envAll ['1']).1 := by
  have h := C6_buffer_sizes envAll ['1'] 1 rfl rfl (by decide)
  have h1 : 1 < (test_numbers 1).length := by
    rw [test_numbers_length 1 (by norm_num [RANGE])]; norm_num [RANGE]
  exact ⟨h.1, by simpa using h.2.1 1 h1, h.2.2.2.1⟩

/-- Recognizer for dispatch events, to isolate the compute dispatch of a run. -/
def isDispatch : Ev → Bool
  | .dispatchWorkgroups _ _ _ => true
  | _ => false

/-- Claim C7 (amended): whenever the invocation reaches the dispatcher it
issues exactly one dispatch, of `(count as u32 + 64 - 1) / 64` workgroups in
X and 1 in Y and Z; and for every `count` with `0 < count` and
`count + 64 - 1 < 2^32` (so the u32 arithmetic does not wrap; both call
sites use 50000 resp. 1000000) this number is exactly `⌈count / 64⌉`:
it is the least number of 64-wide workgroups covering all `count`
candidates.  (The original claim's bare hypothesis `count > 0` admits
counts at which the u32 cast and addition wrap and the dispatch covers
nothing — see the counterexample.) -/
theorem C7_amended_dispatch :
    (∀ (env : GpuEnv) (s : List Char) (n : Nat),
      env.adapterOk = true → env.deviceOk = true → parseU128 s = some n →
      ((do_gpu_collatz env s).1.filter isDispatch)
        = [.dispatchWorkgroups (num_workgroups (test_numbers n).length) 1 1])
    ∧ (∀ count : Nat, 0 < count → count + workgroup_size - 1 < 2^32 →
        num_workgroups count = (count + workgroup_size - 1) / workgroup_size
        ∧ count ≤ workgroup_size * num_workgroups count
        ∧ workgroup_size * num_workgroups count < count + workgroup_size) := by
  constructor
  · intro env s n ha hd hp
    cases hc : env.channelOk <;> cases hm : env.mapOk <;>
      simp [do_gpu_collatz, ha, hd, hp, hc, hm, isDispatch]
  · intro count h0 hbound
    have hval : num_workgroups count = (count + workgroup_size - 1) / workgroup_size := by
      rw [num_workgroups, workgroup_size] at *
      have h32 : (2:Nat)^32 = 4294967296 := by norm_num
      rw [h32] at *
      omega
    refine ⟨hval, ?_, ?_⟩ <;>
    · rw [hval, workgroup_size] at *
      have h32 : (2:Nat)^32 = 4294967296 := by norm_num
      rw [h32] at *
      omega

/-- Witness for C7 (amended): for the WASM batch size 50000 the dispatch is
782 workgroups (and at the start value "1" the single dispatch event of the
run carries exactly that count). -/
theorem C7_amended_dispatch_witness :
    ((do_gpu_collatz envAll ['1']).1.filter isDispatch)
      = [.dispatchWorkgroups (num_workgroups (test_numbers 1).length) 1 1]
    ∧ num_workgroups 50000 = (50000 + workgroup_size - 1) / workgroup_size
    ∧ 50000 ≤ workgroup_size * num_workgroups 50000 :=
  ⟨C7_amended_dispatch.1 envAll ['1'] 1 rfl rfl (by decide),
   (C7_amended_dispatch.2 50000 (by norm_num) (by norm_num [workgroup_size])).1,
   (C7_amended_dispatch.2 50000 (by norm_num) (by norm_num [workgroup_size])).2.1⟩

/-- Counterexample for C7 as stated: at `count = 2^32` (a count > 0, with no
hypothesis in the claim excluding it) the `usize → u32` cast truncates the
buffer length to 0, so 0 workgroups are dispatched instead of the claimed
`ceil(count / 64) = 67108864`, covering no candidates. -/
theorem C7_counterexample :
    0 < 2^32
    ∧ num_workgroups (2^32) = 0
    ∧ (2^32 + workgroup_size - 1) / workgroup_size = 67108864
    ∧ ¬(2^32 ≤ workgroup_size * num_workgroups (2^32)) := by
  refine ⟨by norm_num, by decide, by decide, by decide⟩

/-- The length of the returned `Vec<u32>` on the `Ok` path (0 on `Err`). -/
def okLength : Except GpuError (List Nat) → Nat
  | .ok l => l.length
  | .error _ => 0

theorem asBytes_length : ∀ (l : List Nat) (sz : Nat), (asBytes l sz).length = sz := by
  intro l sz
  simp only [asBytes, List.length_append, List.length_take, List.length_map,
    List.length_replicate]
  omega

theorem bytesToWords_length : ∀ l : List Nat, (bytesToWords l).length = l.length / 4
  | [] => rfl
  | [_] => by simp [bytesToWords]
  | [_, _] => by simp [bytesToWords]
  | [_, _, _] => by simp [bytesToWords]
  | b0 :: b1 :: b2 :: b3 :: rest => by
    simp only [bytesToWords, List.length_cons, bytesToWords_length rest]
    omega

theorem run_ok_result : ∀ (env : GpuEnv) (s : List Char) (n : Nat),
    env.adapterOk = true → env.deviceOk = true → parseU128 s = some n →
    env.channelOk = true → env.mapOk = true →
    (do_gpu_collatz env s).2
      = .ok (bytesToWords (asBytes (env.gpu (input_data n))
          (output_size (test_numbers n).length))) := by
  intro env s n ha hd hp hc hm
  simp [do_gpu_collatz, ha, hd, hp, hc, hm]

theorem run_ok_length : ∀ (env : GpuEnv) (s : List Char) (n : Nat),
    env.adapterOk = true → env.deviceOk = true → parseU128 s = some n →
    env.channelOk = true → env.mapOk = true →
    okLength (do_gpu_collatz env s).2 = (test_numbers n).length * 8 := by
  intro env s n ha hd hp hc hm
  rw [run_ok_result env s n ha hd hp hc hm]
  simp only [okLength, bytesToWords_length, asBytes_length, output_size]
  omega

/-- Claim C2 (amended): on success `do_gpu_collatz` returns the entire
staging buffer reinterpreted as little-endian u32 words — `count * 8` words
for a batch of `count` candidates, the trailing padding words included, not
`count * 5` words with the padding dropped.  (The per-record data the decode
loop reads lies at a 5-word stride inside this vector; the loop itself only
logs and nothing is removed before `results.to_vec()` is returned.) -/
theorem C2_amended_full_buffer : ∀ (env : GpuEnv) (s : List Char) (n : Nat),
    env.adapterOk = true → env.deviceOk = true → parseU128 s = some n →
    env.channelOk = true → env.mapOk = true →
    (do_gpu_collatz env s).2
      = .ok (bytesToWords (asBytes (env.gpu (input_data n))
          (output_size (test_numbers n).length)))
    ∧ okLength (do_gpu_collatz env s).2 = (test_numbers n).length * 8 := by
  intro env s n ha hd hp hc hm
  exact ⟨run_ok_result env s n ha hd hp hc hm, run_ok_length env s n ha hd hp hc hm⟩

/-- Witness for C2 (amended) at start value "1": 50000 candidates give a
returned vector of 400000 words. -/
theorem C2_amended_full_buffer_witness :
    okLength (do_gpu_collatz envAll ['1']).2 = (test_numbers 1).length * 8
    ∧ (test_numbers 1).length * 8 = 400000 := by
  refine ⟨(C2_amended_full_buffer envAll ['1'] 1 rfl rfl (by decide) rfl rfl).2, ?_⟩
  rw [test_numbers_length 1 (by norm_num [RANGE])]
  norm_num [RANGE]

/-- Counterexample for C2 as stated: for the batch of 50000 candidates
starting at "1" the returned vector has 400000 = 50000 * 8 words, not
50000 * 5 = 250000 — the trailing padding words of each 32-byte output
record are returned, not dropped. -/
theorem C2_counterexample :
    okLength (do_gpu_collatz envAll ['1']).2 = 400000
    ∧ (test_numbers 1).length = 50000
    ∧ 400000 ≠ 50000 * 5 := by
  have hl : (test_numbers 1).length = 50000 := test_numbers_length 1 (by norm_num [RANGE])
  refine ⟨?_, hl, by norm_num⟩
  rw [run_ok_length envAll ['1'] 1 rfl rfl (by decide) rfl rfl, hl]

/-- The per-record read the decode loops perform (lib.rs lines 212-221 and
main.rs lines 124-133): with `results` the whole staging buffer as u32 words
and `offset = i * 5`, `steps = results[offset]` and `max_value` is decoded
from `results[offset+1 .. offset+5]`. -/
def decode_record (results : List Nat) (i : Nat) : Nat × Nat :=
  (results.getD (i * 5) 0,
   u32_array_to_u128 [results.getD (i * 5 + 1) 0, results.getD (i * 5 + 2) 0,
     results.getD (i * 5 + 3) 0, results.getD (i * 5 + 4) 0])

/-- The little-endian u32 at byte offset `off` of a byte buffer. -/
def readLE32 (bytes : List Nat) (off : Nat) : Nat :=
  bytes.getD off 0 + bytes.getD (off + 1) 0 * 256 + bytes.getD (off + 2) 0 * 2^16
    + bytes.getD (off + 3) 0 * 2^24

/-- Modelled from the spec: the decode prescribed by the 32-byte output
record layout (`[u32 steps][4 x u32 max_value][12 bytes unused]`, records at
a 32-byte stride) that the buffer allocation comment (lib.rs line 126,
main.rs line 60), the spec's OutputRecord data model, and its compute
artifact contract all state; the compute artifact `add.wgsl` that writes the
records is not present under src/.  Record `i`'s steps are bytes
`[i*32, i*32+4)` and its max_value is bytes `[i*32+4, i*32+20)`; the 12
trailing bytes are skipped. -/
def decode_record_layout (bytes : List Nat) (i : Nat) : Nat × Nat :=
  (readLE32 bytes (i * 32),
   u32_array_to_u128 [readLE32 bytes (i * 32 + 4), readLE32 bytes (i * 32 + 8),
     readLE32 bytes (i * 32 + 12), readLE32 bytes (i * 32 + 16)])

/-- Claim C1: contradicted by the decode loops.  On the staging buffer whose
64 bytes are 0,1,...,63 (two 32-byte output records), the code reads record
1's steps field from bytes `[20, 24)` — word index 5 of the cast buffer,
inside record 0's padding region under the 32-byte record layout — and not
from bytes `[32, 36)` as the layout prescribes; the decoded record differs
from the layout-prescribed decode, so records are effectively consumed at a
20-byte stride and the 12 trailing padding bytes of each record are not
skipped. -/
theorem C1_decoder_stride_bug :
    (decode_record (bytesToWords (List.range 64)) 1).1 = readLE32 (List.range 64) 20
    ∧ (decode_record (bytesToWords (List.range 64)) 1).1 ≠ readLE32 (List.range 64) 32
    ∧ decode_record (bytesToWords (List.range 64)) 1 ≠ decode_record_layout (List.range 64) 1 := by
  refine ⟨by decide, by decide, by decide⟩

/-- The host reference `fn collatz(mut n: u128) -> (u128, u128)` of
main.rs (lines 149-164), with an explicit fuel bound standing for the
unbounded `while n != 1` loop: one fuel unit per loop-guard check, `none`
when the fuel runs out before the guard fails.  The odd branch `3 * n + 1`
is wrapping u128 arithmetic. -/
def collatzLoop : Nat → Nat → Nat → Nat → Option (Nat × Nat)
  | 0, _, _, _ => none
  | fuel + 1, n, steps, mx =>
    if n = 1 then some (steps, mx)
    else
      let n2 := if n % 2 = 0 then n / 2 else (3 * n + 1) % 2^128
      collatzLoop fuel n2 (steps + 1) (if n2 > mx then n2 else mx)

/-- `collatz n` with a fuel bound: steps and maximum of the trajectory. -/
def collatz (n : Nat) (fuel : Nat) : Option (Nat × Nat) :=
  collatzLoop fuel n 0 n

/-- Modelled from the spec: the compute artifact `add.wgsl` is not present
under src/, and the spec's reference-equivalence property states that the
decoded GPU result for a candidate must equal the independent host-computed
Collatz trace, so the decoded GPU result is modelled as that trace. -/
def gpu_decoded_result (n : Nat) (fuel : Nat) : Option (Nat × Nat) :=
  collatz n fuel

/-- Claim C9: for the small inputs 1, 6 and 27 the host-computed Collatz
trace is (steps, max) = (0, 1), (8, 16) and (111, 9232) respectively, and
the decoded GPU result (modelled from the spec as equal to the host trace)
agrees. -/
theorem C9_reference_traces :
    collatz 1 200 = some (0, 1)
    ∧ collatz 6 200 = some (8, 16)
    ∧ collatz 27 200 = some (111, 9232)
    ∧ gpu_decoded_result 1 200 = collatz 1 200
    ∧ gpu_decoded_result 6 200 = collatz 6 200
    ∧ gpu_decoded_result 27 200 = collatz 27 200 := by
  refine ⟨by decide, by decide, by decide, rfl, rfl, rfl⟩

/-- Claim C10: the host reference `collatz` does not terminate on input 0:
0 fails the loop guard `n != 1`, the even branch maps 0 to 0/2 = 0, so the
loop never reaches 1 — in the fuel model, every fuel bound is exhausted
(`none`), from any accumulator state. -/
theorem C10_collatz_zero_diverges :
    ∀ fuel steps mx : Nat, collatzLoop fuel 0 steps mx = none ∧ collatz 0 fuel = none := by
  have h : ∀ fuel steps mx : Nat, collatzLoop fuel 0 steps mx = none := by
    intro fuel
    induction fuel with
    | zero => intro _ _; rfl
    | succ f ih =>
      intro steps mx
      simp only [collatzLoop, if_neg (by decide : ¬(0:Nat) = 1)]
      simpa using ih (steps + 1) (if 0 > mx then 0 else mx)
  exact fun fuel steps mx => ⟨h fuel steps mx, h fuel 0 0⟩

end CollatzAtHome
